import Mathlib

/-!
Verification of the Gaussian-LDA inference engine (`src/gaussianlda/model.py`)
against its natural-language specification.

Numeric model: Python/NumPy floating-point scalars are embedded as exact
rationals `ℚ`.  The transcendental library routines (`np.log`, `np.exp`,
`np.sqrt`, `scipy.special.gammaln`, `math.pi`) are abstract parameters bundled
in an `Ops` record: every claim under scrutiny is about the *structure* of the
computation (which expression is formed out of these primitives), which is
exactly what survives in exact arithmetic.
-/

namespace GLDA

/-- Abstract numeric primitives used by the source (`np.log`, `np.exp`,
`np.sqrt`, `scipy.special.gammaln`, `math.pi`). -/
structure Ops where
  log : ℚ → ℚ
  exp : ℚ → ℚ
  sqrt : ℚ → ℚ
  gammaln : ℚ → ℚ
  pi : ℚ

/-- Dot product of two lists, truncated at the shorter one. -/
def dotTrunc : List ℚ → List ℚ → ℚ
  | _, [] => 0
  | [], _ => 0
  | x :: xs, y :: ys => x * y + dotTrunc xs ys

/-- Matrix–vector product (rows as lists). -/
def matVecMul (A : List (List ℚ)) (v : List ℚ) : List ℚ :=
  A.map (fun row => dotTrunc row v)

/-- `scipy.linalg.solve_triangular(a, b)` with the DEFAULT `lower=False`
(as called at `model.py:268` and `model.py:295`): LAPACK `trtrs` with
`uplo` set to upper back-substitutes referencing ONLY the upper triangle of `a`
(entries `a i j` with `j ≥ i`); the strictly lower triangle is never read.
`i` is the index of the current row; recursion proceeds bottom-up. -/
def backSolveAux (i : ℕ) (rows : List (List ℚ)) (b : List ℚ) : List ℚ :=
  match rows with
  | [] => []
  | row :: rest =>
      let zrest := backSolveAux (i + 1) rest (b.drop 1)
      ((b.headD 0 - dotTrunc (row.drop (i + 1)) zrest) / row.getD i 0) :: zrest

/-- The triangular solve the source actually performs (see `backSolveAux`). -/
def backSolve (A : List (List ℚ)) (b : List ℚ) : List ℚ :=
  backSolveAux 0 A b

/-- Forward substitution on a lower-triangular system `L z = b`
(the algorithm the specification prescribes): row `i` reads only entries
`L i j` with `j ≤ i`.  `acc` is the list of already-solved components. -/
def forwardSolveAux : List (List ℚ) → List ℚ → List ℚ → List ℚ
  | row :: rest, bi :: brest, acc =>
      forwardSolveAux rest brest
        (acc ++ [(bi - dotTrunc row acc) / row.getD acc.length 0])
  | _, _, acc => acc

/-- Forward substitution (specification's solve). -/
def forwardSolve (A : List (List ℚ)) (b : List ℚ) : List ℚ :=
  forwardSolveAux A b []

/-- The trained model state built by `GaussianLDA.__init__`
(`model.py:24-63`): `V` = vocabulary size, `D` = embedding size
(`vocab_embeddings.shape[1]`), `K` = `num_tables`.  The prior fields come
from the external `Wishart` collaborator (`gaussianlda.prior`). -/
structure GaussianLDA (V D K : ℕ) where
  vocab_embeddings : Fin V → Fin D → ℚ
  alpha : ℚ
  table_counts : Fin K → ℚ
  table_means : Fin K → Fin D → ℚ
  log_determinants : Fin K → ℚ
  table_cholesky_ltriangular_mat : Fin K → Fin D → Fin D → ℚ
  prior_kappa : ℚ
  prior_nu : ℚ
  prior_mu : Fin D → ℚ

/-- Cached per-table scale, `model.py:60-62`:
`scaleTdistrn = sqrt((k_n + 1)/(k_n (nu_n - D + 1)))` with
`k_n = kappa + table_counts`, `nu_n = nu + table_counts`. -/
def GaussianLDA.scaleTdistrn {V D K : ℕ} (ops : Ops) (m : GaussianLDA V D K)
    (t : Fin K) : ℚ :=
  ops.sqrt ((m.prior_kappa + m.table_counts t + 1) /
    ((m.prior_kappa + m.table_counts t) *
      (m.prior_nu + m.table_counts t - (D : ℚ) + 1)))

/-- Cached per-table degrees of freedom, `model.py:63`:
`nu = prior.nu + table_counts - embedding_size + 1`. -/
def GaussianLDA.nu {V D K : ℕ} (m : GaussianLDA V D K) (t : Fin K) : ℚ :=
  m.prior_nu + m.table_counts t - (D : ℚ) + 1

/-- `GaussianLDA.log_multivariate_tdensity` (`model.py:246-279`), single-vector
(`x.ndim == 1`) path.  Recomputes `k_n`, `nu_n`, `scaleTdistrn`, `nu` inline
(lines 257-261), centres `x`, scales the stored Cholesky factor
(lines 265-267), calls `solve_triangular` WITHOUT `lower=True` (line 268),
sums the squares (line 270) and assembles the Student-t log density
(lines 272-278). -/
def log_multivariate_tdensity {V D K : ℕ} (ops : Ops) (m : GaussianLDA V D K)
    (x : Fin D → ℚ) (table_id : Fin K) : ℚ :=
  let count := m.table_counts table_id
  let k_n := m.prior_kappa + count
  let nu_n := m.prior_nu + count
  let scaleT := ops.sqrt ((k_n + 1) / (k_n * (nu_n - (D : ℚ) + 1)))
  let nu := m.prior_nu + count - (D : ℚ) + 1
  let x_minus_mu := (List.finRange D).map (fun j => x j - m.table_means table_id j)
  let ltriangular_chol := (List.finRange D).map (fun i =>
    (List.finRange D).map (fun j =>
      scaleT * m.table_cholesky_ltriangular_mat table_id i j))
  let solved := backSolve ltriangular_chol x_minus_mu
  let val := (solved.map (fun z => z * z)).sum
  ops.gammaln ((nu + (D : ℚ)) / 2) -
    (ops.gammaln (nu / 2) +
     (D : ℚ) / 2 * (ops.log nu + ops.log ops.pi) +
     m.log_determinants table_id +
     (nu + (D : ℚ)) / 2 * ops.log (1 + val / nu))

/-- `GaussianLDA.log_multivariate_tdensity_tables` (`model.py:281-306`):
the all-tables evaluator; uses the cached `self.scaleTdistrn` and `self.nu`
from `__init__` and the same `solve_triangular` call (again without
`lower=True`, line 295). -/
def log_multivariate_tdensity_tables {V D K : ℕ} (ops : Ops)
    (m : GaussianLDA V D K) (x : Fin D → ℚ) : Fin K → ℚ :=
  fun table =>
    let x_minus_mu := (List.finRange D).map (fun j => x j - m.table_means table j)
    let ltriangular_chol := (List.finRange D).map (fun i =>
      (List.finRange D).map (fun j =>
        m.scaleTdistrn ops table * m.table_cholesky_ltriangular_mat table i j))
    let solved := backSolve ltriangular_chol x_minus_mu
    let val := (solved.map (fun z => z * z)).sum
    let nu := m.nu table
    ops.gammaln ((nu + (D : ℚ)) / 2) -
      (ops.gammaln (nu / 2) +
       (D : ℚ) / 2 * (ops.log nu + ops.log ops.pi) +
       m.log_determinants table +
       (nu + (D : ℚ)) / 2 * ops.log (1 + val / nu))

/-- Batched (`x.ndim > 1`) path of `log_multivariate_tdensity`
(`model.py:251-255`): allocates a result per row and fills entry `i` with the
recursive single-vector call on row `x[i]`. -/
def log_multivariate_tdensity_nd {V D K n : ℕ} (ops : Ops)
    (m : GaussianLDA V D K) (X : Fin n → Fin D → ℚ) (table_id : Fin K) :
    Fin n → ℚ :=
  fun i => log_multivariate_tdensity ops m (X i) table_id

/-- The density the specification describes for claim C1: identical Student-t
formula, but `z` obtained by FORWARD substitution on the lower-triangular
system (spec 4.2 step 3) and the `(D/2)·ln(ν·π)` term written as stated. -/
def log_multivariate_tdensity_spec {V D K : ℕ} (ops : Ops)
    (m : GaussianLDA V D K) (x : Fin D → ℚ) (table_id : Fin K) : ℚ :=
  let count := m.table_counts table_id
  let k_n := m.prior_kappa + count
  let nu_n := m.prior_nu + count
  let scaleT := ops.sqrt ((k_n + 1) / (k_n * (nu_n - (D : ℚ) + 1)))
  let nu := m.prior_nu + count - (D : ℚ) + 1
  let x_minus_mu := (List.finRange D).map (fun j => x j - m.table_means table_id j)
  let ltriangular_chol := (List.finRange D).map (fun i =>
    (List.finRange D).map (fun j =>
      scaleT * m.table_cholesky_ltriangular_mat table_id i j))
  let solved := forwardSolve ltriangular_chol x_minus_mu
  let val := (solved.map (fun z => z * z)).sum
  ops.gammaln ((nu + (D : ℚ)) / 2) -
    (ops.gammaln (nu / 2) +
     (D : ℚ) / 2 * ops.log (nu * ops.pi) +
     m.log_determinants table_id +
     (nu + (D : ℚ)) / 2 * ops.log (1 + val / nu))

/-- Numeric primitives for the C1 evaluation: `log q = q - 1` (so that
`log 1 = 0` and `log (x·1) = log x + log 1`), `pi = 1`, `sqrt`/`gammaln`
the identity.  These make the C1 model's scale factor exactly 1 and keep the
`ln(ν·π)` term identical between code and spec, isolating the solve step. -/
def opsC1 : Ops :=
  { log := fun q => q - 1, exp := fun q => q, sqrt := fun q => q,
    gammaln := fun q => q, pi := 1 }

/-- Concrete C1 model: `V = 1`, `D = 2`, `K = 1`; embedding `(1,1)`;
`κ₀ = 1`, `ν₀ = 3`, zero count, zero mean, zero stored log-determinant,
Cholesky factor `[[1,0],[1,1]]`.  With `opsC1` the scale factor is
`sqrt((1+1)/(1·(3-2+1))) = 1`. -/
def mC1 : GaussianLDA 1 2 1 :=
  { vocab_embeddings := fun _ _ => 1
    alpha := 1
    table_counts := fun _ => 0
    table_means := fun _ _ => 0
    log_determinants := fun _ => 0
    table_cholesky_ltriangular_mat := fun _ i j =>
      if (i : ℕ) = 1 ∧ (j : ℕ) = 0 then 1 else if i = j then 1 else 0
    prior_kappa := 1
    prior_nu := 3
    prior_mu := fun _ => 0 }

/-- The C1 centred vector `d = x − μ₀ = (1,1)` and scaled factor
`L' = [[1,0],[1,1]]`. -/
def cholC1 : List (List ℚ) := [[1, 0], [1, 1]]

/-- The C1 right-hand side. -/
def dC1 : List ℚ := [1, 1]

/-- `np.linalg.slogdet(A)[1]`: the natural log of the absolute value of the
determinant (the `[1]` component of `slogdet`). -/
def slogdet_logabs (ops : Ops) {n : ℕ} (A : Matrix (Fin n) (Fin n) ℚ) : ℚ :=
  ops.log |A.det|

/-- `load_from_java`'s stored value (`model.py:155`):
`log_determinants[table] = 2. * np.linalg.slogdet(chol)[1]`. -/
def legacy_log_determinant (ops : Ops) {n : ℕ}
    (chol : Matrix (Fin n) (Fin n) ℚ) : ℚ :=
  2 * slogdet_logabs ops chol

/-- The value claim C6 (and the class contract, `model.py:43-44`) prescribes:
the half-log-determinant of the posterior covariance, i.e. the
log-determinant of the Cholesky factor itself. -/
def halfLogDetOfChol (ops : Ops) {n : ℕ}
    (chol : Matrix (Fin n) (Fin n) ℚ) : ℚ :=
  ops.log |chol.det|

/-- Numeric primitives for the C6 evaluation: `log` the identity. -/
def opsC6 : Ops :=
  { log := fun q => q, exp := fun q => q, sqrt := fun q => q,
    gammaln := fun q => q, pi := 1 }

/-- A concrete 1×1 legacy Cholesky factor `[[3]]` (determinant 3). -/
def cholC6 : Matrix (Fin 1) (Fin 1) ℚ := fun _ _ => 3

/-- The only failure the source can raise inside `sample`'s loop: the NumPy
IndexError from `x = self.vocab_embeddings[cust_id]` (`model.py:218`) when
the token id is outside the vocabulary. -/
inductive SampleErr where
  | indexError (tok : ℕ)

/-- Whether an `Except` result is a success. -/
def okB {ε α : Type} : Except ε α → Bool
  | .ok _ => true
  | .error _ => false

/-- `x = self.vocab_embeddings[cust_id]` (`model.py:218`), token ids being
naturals: raises IndexError iff `cust_id ≥ V`. -/
def lookupEmbedding {V D K : ℕ} (m : GaussianLDA V D K) (tok : ℕ) :
    Except SampleErr (Fin D → ℚ) :=
  if h : tok < V then .ok (m.vocab_embeddings ⟨tok, h⟩)
  else .error (.indexError tok)

/-- Per-document sampling state (`model.py:213-214`): the assignment list
(`table_assignments`, Python ints, hence `ℤ`, so the transient `-1` sentinel
of line 222 is representable) and the topic-count histogram
(`doc_table_counts`, a NumPy int array). -/
structure DocState (N K : ℕ) where
  assignments : Fin N → ℤ
  counts : Fin K → ℤ

/-- Initial state (`model.py:213-214`): the uniform random initial assignment
(the concrete draw of `np.random.randint` is an oracle input here) and its
`np.bincount` with `minlength = K`. -/
def DocState.initState {N K : ℕ} (init : Fin N → Fin K) : DocState N K :=
  { assignments := fun i => ((init i : ℕ) : ℤ)
    counts := fun t => ∑ i : Fin N, if init i = t then (1 : ℤ) else 0 }

/-- The retract (`model.py:221-223`): decrement the histogram at the current
assignment of position `w` (read at line 221, before the sentinel write of
line 222).  In every reachable state that assignment is a table id in
`[0,K)`; per the source's own comment at line 222, only the counts are used
while a token is unassigned. -/
def retractCounts {N K : ℕ} (st : DocState N K) (w : Fin N) : Fin K → ℤ :=
  fun t =>
    if ((t : ℕ) : ℤ) = st.assignments w then st.counts t - 1 else st.counts t

/-- The commit (`model.py:242`): increment the histogram at the new table. -/
def commitCounts {K : ℕ} (c : Fin K → ℤ) (tstar : Fin K) : Fin K → ℤ :=
  fun t => if t = tstar then c t + 1 else c t

/-- `np.max` over a (nonempty) array, as a list fold. -/
def listMax : List ℚ → ℚ
  | [] => 0
  | a :: l => l.foldl max a

/-- One token update of `sample`'s inner loop (`model.py:217-243`), in
source order: read the old assignment, write the `-1` sentinel, decrement
the histogram, smooth the counts with `alpha` (line 227), get the batched
log-likelihoods (line 229), add the log prior (line 231), subtract the max
and exponentiate (line 236), normalize (line 237), draw the new table
(line 239: `np.random.choice`, embedded as the `chooser` oracle receiving
the normalized posterior), then increment the histogram and store the new
assignment (lines 242-243).  The model is threaded through the state pair:
the loop body assigns no attribute of `self`, so the model component is
passed on as it came in. -/
def gibbsTokenFull {V D K N : ℕ} (ops : Ops) (doc : Fin N → ℕ)
    (chooser : ℕ → (Fin K → ℚ) → Fin K) (step : ℕ)
    (p : GaussianLDA V D K × DocState N K) (w : Fin N) :
    Except SampleErr (GaussianLDA V D K × DocState N K) := do
  let x ← lookupEmbedding p.1 (doc w)
  let st := p.2
  let a1 := Function.update st.assignments w (-1 : ℤ)
  let c1 := retractCounts st w
  let counts_alpha := fun t : Fin K => (c1 t : ℚ) + p.1.alpha
  let log_lls := log_multivariate_tdensity_tables ops p.1 x
  let log_posteriors := fun t : Fin K => ops.log (counts_alpha t) + log_lls t
  let mx := listMax ((List.finRange K).map log_posteriors)
  let pexp := fun t : Fin K => ops.exp (log_posteriors t - mx)
  let ssum := ((List.finRange K).map pexp).sum
  let posterior := fun t : Fin K => pexp t / ssum
  let new_table_id := chooser step posterior
  let c2 := commitCounts c1 new_table_id
  let a2 := Function.update a1 w ((new_table_id : ℕ) : ℤ)
  return (p.1, ⟨a2, c2⟩)

/-- One full sweep (`model.py:217`, `for w, cust_id in enumerate(doc)`):
token positions visited in their original document order.  The oracle index
of the draw at iteration `it`, position `w` is `it * N + w`. -/
def gibbsSweepFull {V D K N : ℕ} (ops : Ops) (doc : Fin N → ℕ)
    (chooser : ℕ → (Fin K → ℚ) → Fin K) (iteration : ℕ)
    (p : GaussianLDA V D K × DocState N K) :
    Except SampleErr (GaussianLDA V D K × DocState N K) :=
  List.foldlM
    (fun q (w : Fin N) =>
      gibbsTokenFull ops doc chooser (iteration * N + (w : ℕ)) q w)
    p (List.finRange N)

/-- `GaussianLDA.sample` (`model.py:201-244`) with the model state threaded
through.  `for iteration in range(num_iterations)`: a negative count makes
`range` empty, exactly as `Int.toNat` does here. -/
def sampleFull {V D K N : ℕ} (ops : Ops) (m : GaussianLDA V D K)
    (doc : Fin N → ℕ) (chooser : ℕ → (Fin K → ℚ) → Fin K)
    (init : Fin N → Fin K) (num_iterations : ℤ) :
    Except SampleErr (GaussianLDA V D K × DocState N K) :=
  List.foldlM (fun p iteration => gibbsSweepFull ops doc chooser iteration p)
    (m, DocState.initState init) (List.range num_iterations.toNat)

/-- `GaussianLDA.sample`'s return value (`model.py:244`):
the final assignment list. -/
def sample {V D K N : ℕ} (ops : Ops) (m : GaussianLDA V D K)
    (doc : Fin N → ℕ) (chooser : ℕ → (Fin K → ℚ) → Fin K)
    (init : Fin N → Fin K) (num_iterations : ℤ) :
    Except SampleErr (Fin N → ℤ) :=
  (sampleFull ops m doc chooser init num_iterations).map
    (fun p => p.2.assignments)

/-- The categorical distribution claim C2 describes: unnormalized
log-posterior `ln(H[t] + α) + logDensity(x, t)` (single-table evaluator),
stabilized by subtracting the maximum, exponentiated and normalized. -/
def posteriorSpec {V D K : ℕ} (ops : Ops) (m : GaussianLDA V D K)
    (c : Fin K → ℤ) (x : Fin D → ℚ) : Fin K → ℚ :=
  let lp := fun t : Fin K =>
    ops.log ((c t : ℚ) + m.alpha) + log_multivariate_tdensity ops m x t
  let mx := listMax ((List.finRange K).map lp)
  let pe := fun t : Fin K => ops.exp (lp t - mx)
  fun t => pe t / ((List.finRange K).map pe).sum

/-- The token transition exactly as claim C2 words it: retract the current
assignment from the histogram, sample `tstar` from the normalized posterior
`posteriorSpec`, set `A[i] = tstar` and increment `H[tstar]`. -/
def gibbsTokenSpec {V D K N : ℕ} (ops : Ops) (m : GaussianLDA V D K)
    (doc : Fin N → ℕ) (chooser : ℕ → (Fin K → ℚ) → Fin K) (step : ℕ)
    (st : DocState N K) (w : Fin N) : Except SampleErr (DocState N K) := do
  let x ← lookupEmbedding m (doc w)
  let c1 := retractCounts st w
  let tstar := chooser step (posteriorSpec ops m c1 x)
  return { assignments := Function.update st.assignments w ((tstar : ℕ) : ℤ)
           counts := commitCounts c1 tstar }

/-- The whole sampler as claim C2 describes it: `numIterations` sweeps, each
visiting the token positions in their original document order and applying
the claim's transition. -/
def sampleSpec {V D K N : ℕ} (ops : Ops) (m : GaussianLDA V D K)
    (doc : Fin N → ℕ) (chooser : ℕ → (Fin K → ℚ) → Fin K)
    (init : Fin N → Fin K) (num_iterations : ℤ) :
    Except SampleErr (Fin N → ℤ) :=
  (List.foldlM
    (fun st iteration =>
      List.foldlM
        (fun st2 (w : Fin N) =>
          gibbsTokenSpec ops m doc chooser (iteration * N + (w : ℕ)) st2 w)
        st (List.finRange N))
    (DocState.initState init) (List.range num_iterations.toNat)).map
    (fun st => st.assignments)

/-- Degenerate numeric primitives for concrete sampler runs: `exp` constantly
1 (positive, as the real `exp` is). -/
def opsW : Ops :=
  { log := fun _ => 0, exp := fun _ => 1, sqrt := fun q => q,
    gammaln := fun _ => 0, pi := 1 }

/-- A minimal model: `V = D = K = 1`, everything zero, `α = 1`, `κ₀ = 1`,
`ν₀ = 3`. -/
def mW : GaussianLDA 1 1 1 :=
  { vocab_embeddings := fun _ _ => 0
    alpha := 1
    table_counts := fun _ => 0
    table_means := fun _ _ => 0
    log_determinants := fun _ => 0
    table_cholesky_ltriangular_mat := fun _ _ _ => 1
    prior_kappa := 1
    prior_nu := 3
    prior_mu := fun _ => 0 }

/-- A valid one-token document (token id 0). -/
def docW : Fin 1 → ℕ := fun _ => 0

/-- A one-token document whose token id 5 is outside the vocabulary
(`V = 1`). -/
def docC5 : Fin 1 → ℕ := fun _ => 5

/-- A fixed chooser oracle (always table 0). -/
def chooserW : ℕ → (Fin 1 → ℚ) → Fin 1 := fun _ _ => 0

/-- A fixed initial assignment (all tokens at table 0). -/
def initW : Fin 1 → Fin 1 := fun _ => 0

/-- Concrete instance for the C4 counterexample: one token, one table. -/
def c4init : Fin 1 → Fin 1 := fun _ => 0

/-- Untyped (list-shaped) model record, exactly as Python's dynamically
shaped `__init__` sees it: every array stored as given, no shape checks. -/
structure RawModel where
  vocab : List String
  alpha : ℚ
  vocab_embeddings : List (List ℚ)
  embedding_size : ℕ
  num_tables : ℕ
  table_counts : List ℚ
  table_means : List (List ℚ)
  log_determinants : List ℚ
  table_cholesky_ltriangular_mat : List (List (List ℚ))
  prior_kappa : ℚ
  prior_nu : ℚ
  prior_mu : List ℚ
  k0mu0mu0T : List (List ℚ)
  scaleTdistrn : List ℚ
  nu : List ℚ

/-- Load-time failure the specification prescribes for inconsistent array
shapes. -/
inductive LoadErr where
  | shapeMismatch

/-- Modelled from the spec: the external `Wishart` prior collaborator
(`gaussianlda.prior`, whose source is not under scrutiny here), invoked by
`__init__` at `model.py:50`.  Per spec section 3 the PriorContext is
`(κ₀, ν₀, μ₀)` with `ν₀ > D − 1`: the prior mean `μ₀` is derived from the
embeddings (their mean), and `ν₀` is taken to be the embedding dimension
`D`, which satisfies `ν₀ > D − 1`.  Returns `(ν₀, μ₀)`. -/
def wishartPrior (vocab_embeddings : List (List ℚ)) : ℚ × List ℚ :=
  let d := (vocab_embeddings.headD []).length
  ((d : ℚ),
    (List.range d).map (fun j =>
      ((vocab_embeddings.map (fun row => row.getD j 0)).sum) /
        (vocab_embeddings.length : ℚ)))

/-- `kappa * np.outer(mu, mu)` (`model.py:54`). -/
def outerScaled (k : ℚ) (u v : List ℚ) : List (List ℚ) :=
  u.map (fun ui => v.map (fun vj => k * (ui * vj)))

/-- `GaussianLDA.__init__` (`model.py:24-63`) over the untyped arrays it is
actually handed: stores every input as given, reads `embedding_size` off the
embedding matrix (`.shape[1]`), builds the prior, caches `κ₀μ₀μ₀ᵀ` and the
per-table `scaleTdistrn` / `nu` vectors (lines 60-63).  The body performs no
validation of any kind, so it never returns an error. -/
def initRaw (ops : Ops) (vocab_embeddings : List (List ℚ))
    (vocab : List String) (num_tables : ℕ) (alpha kappa : ℚ)
    (table_counts : List ℚ) (table_means : List (List ℚ))
    (log_determinants : List ℚ)
    (table_cholesky_ltriangular_mat : List (List (List ℚ))) :
    Except LoadErr RawModel :=
  let embedding_size := (vocab_embeddings.headD []).length
  let prior := wishartPrior vocab_embeddings
  .ok
    { vocab := vocab
      alpha := alpha
      vocab_embeddings := vocab_embeddings
      embedding_size := embedding_size
      num_tables := num_tables
      table_counts := table_counts
      table_means := table_means
      log_determinants := log_determinants
      table_cholesky_ltriangular_mat := table_cholesky_ltriangular_mat
      prior_kappa := kappa
      prior_nu := prior.1
      prior_mu := prior.2
      k0mu0mu0T := outerScaled kappa prior.2 prior.2
      scaleTdistrn := table_counts.map (fun cnt =>
        ops.sqrt ((kappa + cnt + 1) /
          ((kappa + cnt) * (prior.1 + cnt - (embedding_size : ℚ) + 1))))
      nu := table_counts.map (fun cnt =>
        prior.1 + cnt - (embedding_size : ℚ) + 1) }
/-- The two density code paths compute identical expressions in exact
arithmetic: the cached `scaleTdistrn`/`nu` of `__init__` (`model.py:60-63`)
unfold to the very expressions the scalar evaluator recomputes inline
(`model.py:258-261`), and both call the same triangular solve. -/
theorem dens_tables_eq_single {V D K : ℕ} (ops : Ops) (m : GaussianLDA V D K)
    (x : Fin D → ℚ) (t : Fin K) :
    log_multivariate_tdensity_tables ops m x t =
      log_multivariate_tdensity ops m x t := rfl

/-- `Except.map` composes. -/
theorem exceptMap_map {ε α β γ : Type} (x : Except ε α) (f : α → β)
    (g : β → γ) : (x.map f).map g = x.map (fun a => g (f a)) := by
  cases x <;> rfl

/-- A `foldlM` over `Except` whose step keeps the first pair component fixed
on success keeps it fixed overall. -/
theorem foldlM_fst_fixed {μ σ α ε : Type} (F : μ × σ → α → Except ε (μ × σ))
    (hF : ∀ q a q2, F q a = .ok q2 → q2.1 = q.1) (l : List α) :
    ∀ q q2, List.foldlM F q l = .ok q2 → q2.1 = q.1 := by
  induction l with
  | nil =>
      intro q q2 h
      simp only [List.foldlM_nil] at h
      cases h
      rfl
  | cons a l ih =>
      intro q q2 h
      rw [List.foldlM_cons] at h
      cases hfa : F q a with
      | error e => rw [hfa] at h; cases h
      | ok q1 =>
          rw [hfa] at h
          have h1 : List.foldlM F q1 l = .ok q2 := h
          exact (ih q1 q2 h1).trans (hF q a q1 hfa)

/-- One token step never writes the model component (`model.py:216-243`
assigns no attribute of `self`). -/
theorem tokenFull_fst {V D K N : ℕ} (ops : Ops) (doc : Fin N → ℕ)
    (chooser : ℕ → (Fin K → ℚ) → Fin K) (k : ℕ)
    (q : GaussianLDA V D K × DocState N K) (w : Fin N) q2
    (h : gibbsTokenFull ops doc chooser k q w = .ok q2) : q2.1 = q.1 := by
  simp only [gibbsTokenFull, bind, Except.bind] at h
  cases hl : lookupEmbedding q.1 (doc w) with
  | error e => rw [hl] at h; cases h
  | ok x => rw [hl] at h; cases h; rfl

/-- One sweep never writes the model component. -/
theorem sweepFull_fst {V D K N : ℕ} (ops : Ops) (doc : Fin N → ℕ)
    (chooser : ℕ → (Fin K → ℚ) → Fin K) (iteration : ℕ)
    (q : GaussianLDA V D K × DocState N K) q2
    (h : gibbsSweepFull ops doc chooser iteration q = .ok q2) : q2.1 = q.1 :=
  foldlM_fst_fixed _
    (fun q a q2 h => tokenFull_fst ops doc chooser _ q a q2 h)
    (List.finRange N) q q2 h

/-- Claim C9: `sample` never writes the global model state — whenever the
call succeeds, the model component of the threaded state is exactly the
input model (table counts, means, Cholesky factors, log-determinants and
prior hyperparameters unchanged); on error both sides are the same error. -/
theorem c9_sample_leaves_model_unchanged {V D K N : ℕ} (ops : Ops)
    (m : GaussianLDA V D K) (doc : Fin N → ℕ)
    (chooser : ℕ → (Fin K → ℚ) → Fin K) (init : Fin N → Fin K)
    (num_iterations : ℤ) :
    (sampleFull ops m doc chooser init num_iterations).map Prod.fst =
      (sampleFull ops m doc chooser init num_iterations).map
        (fun _ => m) := by
  cases h : sampleFull ops m doc chooser init num_iterations with
  | error e => rfl
  | ok p =>
      have hp : p.1 = m :=
        foldlM_fst_fixed _
          (fun q a q2 hq => sweepFull_fst ops doc chooser a q q2 hq)
          (List.range num_iterations.toNat) (m, DocState.initState init) p h
      simp [Except.map, hp]

/-- The code's token step (sentinel write, batched density, commit order) is
observationally the claim's transition: the sentinel assignment is
overwritten by the commit, the batched density equals the single-table
density, and the chooser receives the same normalized posterior. -/
theorem tokenFull_eq_tokenSpec {V D K N : ℕ} (ops : Ops)
    (m : GaussianLDA V D K) (doc : Fin N → ℕ)
    (chooser : ℕ → (Fin K → ℚ) → Fin K) (k : ℕ) (st : DocState N K)
    (w : Fin N) :
    gibbsTokenFull ops doc chooser k (m, st) w =
      (gibbsTokenSpec ops m doc chooser k st w).map (fun s => (m, s)) := by
  simp only [gibbsTokenFull, gibbsTokenSpec, bind, Except.bind]
  cases hl : lookupEmbedding m (doc w) with
  | error e => rfl
  | ok x =>
      simp only [Except.map]
      rw [Function.update_idem]
      rfl

/-- Lift a state-equivalence through `List.foldlM` over `Except`, the first
pair component riding along unchanged. -/
theorem foldlM_pair_lift {μ σ α ε : Type} (F : μ × σ → α → Except ε (μ × σ))
    (f : σ → α → Except ε σ) (m : μ)
    (h : ∀ s a, F (m, s) a = (f s a).map (fun s2 => (m, s2))) (l : List α) :
    ∀ s, List.foldlM F (m, s) l =
      (List.foldlM f s l).map (fun s2 => (m, s2)) := by
  induction l with
  | nil => intro s; rfl
  | cons a l ih =>
      intro s
      rw [List.foldlM_cons, List.foldlM_cons, h]
      cases hfa : f s a with
      | error e => rfl
      | ok s1 =>
          show List.foldlM F (m, s1) l = _
          exact ih s1

/-- A positive vector divided by its own (list) sum sums to 1. -/
theorem normalize_sum_one {K : ℕ} (hK : 0 < K) (f : Fin K → ℚ)
    (hf : ∀ t, 0 < f t) :
    ∑ t : Fin K, f t / ((List.finRange K).map f).sum = 1 := by
  have hs : ((List.finRange K).map f).sum = ∑ t : Fin K, f t :=
    (Fin.sum_univ_def f).symm
  have hne : Nonempty (Fin K) := Fin.pos_iff_nonempty.mp hK
  have hpos : 0 < ∑ t : Fin K, f t :=
    Finset.sum_pos (fun i _ => hf i) Finset.univ_nonempty
  rw [hs, ← Finset.sum_div]
  exact div_self (ne_of_gt hpos)

/-- Claim C2: `sample` is exactly the claim's transition system — each sweep
scans positions in original order; each position retracts the current
assignment, forms `ln(H[t]+α) + logDensity(x,t)` for every table, stabilizes
by the max, exponentiates, normalizes, draws the new table from that
categorical distribution (the chooser oracle receives it), commits
`A[i] = t*` and `H[t*] += 1`; and (given `exp > 0` and at least one table)
the distribution handed to the oracle sums to 1. -/
theorem c2_sample_follows_spec_transition {V D K N : ℕ} (ops : Ops)
    (m : GaussianLDA V D K) (doc : Fin N → ℕ)
    (chooser : ℕ → (Fin K → ℚ) → Fin K) (init : Fin N → Fin K)
    (num_iterations : ℤ) (hK : 0 < K) (hexp : ∀ q, 0 < ops.exp q) :
    sample ops m doc chooser init num_iterations =
      sampleSpec ops m doc chooser init num_iterations ∧
    ∀ (c : Fin K → ℤ) (x : Fin D → ℚ),
      ∑ t : Fin K, posteriorSpec ops m c x t = 1 := by
  constructor
  · have hsweep : ∀ (iteration : ℕ) (st : DocState N K),
        gibbsSweepFull ops doc chooser iteration (m, st) =
          (List.foldlM
            (fun st2 (w : Fin N) =>
              gibbsTokenSpec ops m doc chooser (iteration * N + (w : ℕ)) st2 w)
            st (List.finRange N)).map (fun s => (m, s)) := by
      intro iteration st
      simp only [gibbsSweepFull]
      exact foldlM_pair_lift
        (fun q (w : Fin N) =>
          gibbsTokenFull ops doc chooser (iteration * N + (w : ℕ)) q w)
        (fun st2 (w : Fin N) =>
          gibbsTokenSpec ops m doc chooser (iteration * N + (w : ℕ)) st2 w)
        m (fun s w => tokenFull_eq_tokenSpec ops m doc chooser _ s w)
        (List.finRange N) st
    have hfold :
        sampleFull ops m doc chooser init num_iterations =
          (List.foldlM
            (fun st iteration =>
              List.foldlM
                (fun st2 (w : Fin N) =>
                  gibbsTokenSpec ops m doc chooser
                    (iteration * N + (w : ℕ)) st2 w)
                st (List.finRange N))
            (DocState.initState init)
            (List.range num_iterations.toNat)).map (fun s => (m, s)) := by
      simp only [sampleFull]
      exact foldlM_pair_lift
        (fun p iteration => gibbsSweepFull ops doc chooser iteration p)
        (fun st iteration =>
          List.foldlM
            (fun st2 (w : Fin N) =>
              gibbsTokenSpec ops m doc chooser
                (iteration * N + (w : ℕ)) st2 w)
            st (List.finRange N))
        m (fun s it => hsweep it s)
        (List.range num_iterations.toNat) (DocState.initState init)
    rw [sample, sampleSpec, hfold, exceptMap_map]
  · intro c x
    simp only [posteriorSpec]
    exact normalize_sum_one hK _ (fun t => hexp _)

/-- Claim C4 counterexample.  In the mid-sweep state of an actual `sample`
call (one-token document, one table) — after the retract of position 0's
assignment and before the commit of its new one — the histogram sums to
`0`, not to the document length `N = 1` the claim asserts for every point
including mid-sweep. -/
theorem c4_midsweep_sum_counterexample :
    (∑ t : Fin 1, retractCounts (DocState.initState c4init) 0 t) ≠ (1 : ℤ) := by
  simp [retractCounts, DocState.initState, c4init]

/-- Claim C4, amended.  The histogram built at the start of `sample` sums to
the document length `N`; every full token step preserves that sum (retract
then commit); but between the retract and the commit the histogram sums to
one LESS than before the step — not to `N`.  States are quantified over all
assignment vectors with entries in `[0,K)` (every reachable state has this
form: the initial assignment and every commit write table ids). -/
theorem c4_histogram_sum_per_step {N K : ℕ} (init : Fin N → Fin K)
    (a : Fin N → Fin K) (c : Fin K → ℤ) (w : Fin N) (tstar : Fin K) :
    (∑ t : Fin K, (DocState.initState init).counts t) = N ∧
    (∑ t : Fin K, retractCounts ⟨fun i => ((a i : ℕ) : ℤ), c⟩ w t) =
      (∑ t : Fin K, c t) - 1 ∧
    (∑ t : Fin K,
        commitCounts (retractCounts ⟨fun i => ((a i : ℕ) : ℤ), c⟩ w) tstar t) =
      ∑ t : Fin K, c t := by
  have hretract : ∀ t : Fin K,
      retractCounts ⟨fun i => ((a i : ℕ) : ℤ), c⟩ w t =
        c t - (if t = a w then 1 else 0) := by
    intro t
    simp only [retractCounts]
    by_cases h : t = a w
    · subst h; simp
    · have hv : ¬ (((t : ℕ) : ℤ) = ((a w : ℕ) : ℤ)) := by
        simpa [Nat.cast_inj, Fin.val_inj] using h
      simp [hv, h]
  have hretractSum :
      (∑ t : Fin K, retractCounts ⟨fun i => ((a i : ℕ) : ℤ), c⟩ w t) =
        (∑ t : Fin K, c t) - 1 := by
    rw [Finset.sum_congr rfl (fun t _ => hretract t), Finset.sum_sub_distrib,
      Finset.sum_ite_eq' Finset.univ (a w) (fun _ => (1 : ℤ))]
    simp
  refine ⟨?_, hretractSum, ?_⟩
  · simp only [DocState.initState]
    rw [Finset.sum_comm]
    have hrow : ∀ i : Fin N,
        (∑ t : Fin K, if init i = t then (1 : ℤ) else 0) = 1 := by
      intro i
      rw [Finset.sum_ite_eq Finset.univ (init i) (fun _ => (1 : ℤ))]
      simp
    rw [Finset.sum_congr rfl (fun i _ => hrow i)]
    simp [Finset.card_univ]
  · have hcommit : ∀ t : Fin K,
        commitCounts (retractCounts ⟨fun i => ((a i : ℕ) : ℤ), c⟩ w) tstar t =
          retractCounts ⟨fun i => ((a i : ℕ) : ℤ), c⟩ w t +
            (if t = tstar then 1 else 0) := by
      intro t
      simp only [commitCounts]
      by_cases h : t = tstar <;> simp [h]
    rw [Finset.sum_congr rfl (fun t _ => hcommit t), Finset.sum_add_distrib,
      Finset.sum_ite_eq' Finset.univ tstar (fun _ => (1 : ℤ)), hretractSum]
    simp

/-- An out-of-vocabulary token makes the token step fail with the NumPy
IndexError, whatever the state. -/
theorem tokenFull_oov_error {V D K N : ℕ} (ops : Ops) (doc : Fin N → ℕ)
    (chooser : ℕ → (Fin K → ℚ) → Fin K) (k : ℕ)
    (q : GaussianLDA V D K × DocState N K) (w : Fin N) (h : V ≤ doc w) :
    gibbsTokenFull ops doc chooser k q w = .error (.indexError (doc w)) := by
  simp only [gibbsTokenFull, lookupEmbedding, bind, Except.bind]
  rw [dif_neg (by omega)]

/-- A `foldlM` over `Except` containing an element on which the step always
fails, fails. -/
theorem foldlM_always_error {σ α ε : Type} (f : σ → α → Except ε σ)
    (l : List α) (w : α) (hw : w ∈ l)
    (hfail : ∀ s, ∃ e, f s w = .error e) :
    ∀ s, ∃ e, List.foldlM f s l = .error e := by
  induction l with
  | nil => cases hw
  | cons a l ih =>
      intro s
      rcases List.mem_cons.mp hw with h | h
      · subst h
        obtain ⟨e, he⟩ := hfail s
        exact ⟨e, by rw [List.foldlM_cons, he]; rfl⟩
      · cases hfa : f s a with
        | error e => exact ⟨e, by rw [List.foldlM_cons, hfa]; rfl⟩
        | ok s1 =>
            obtain ⟨e, he⟩ := ih h s1
            refine ⟨e, ?_⟩
            rw [List.foldlM_cons, hfa]
            exact he

/-- Claim C5, amended.  An out-of-vocabulary token id does make `sample`
fail — but lazily, with the NumPy IndexError raised when the token is first
touched inside the first sweep (after the initial random assignment), and
only if at least one sweep runs (`numIterations ≥ 1`); there is no fail-fast
validation before sampling begins. -/
theorem c5_oov_token_fails_lazily {V D K N : ℕ} (ops : Ops)
    (m : GaussianLDA V D K) (doc : Fin N → ℕ)
    (chooser : ℕ → (Fin K → ℚ) → Fin K) (init : Fin N → Fin K)
    (num_iterations : ℤ) (hn : 0 < num_iterations)
    (hbad : ∃ i : Fin N, V ≤ doc i) :
    okB (sample ops m doc chooser init num_iterations) = false := by
  obtain ⟨i, hi⟩ := hbad
  have hsweep : ∀ q : GaussianLDA V D K × DocState N K,
      ∃ e, gibbsSweepFull ops doc chooser 0 q = .error e := by
    intro q
    simp only [gibbsSweepFull]
    exact foldlM_always_error
      (fun q2 (w : Fin N) =>
        gibbsTokenFull ops doc chooser (0 * N + (w : ℕ)) q2 w)
      (List.finRange N) i (List.mem_finRange i)
      (fun s => ⟨_, tokenFull_oov_error ops doc chooser _ s i hi⟩) q
  have h0 : (0 : ℕ) ∈ List.range num_iterations.toNat :=
    List.mem_range.mpr (by omega)
  obtain ⟨e, he⟩ := foldlM_always_error
    (fun p iteration => gibbsSweepFull ops doc chooser iteration p)
    (List.range num_iterations.toNat) 0 h0 hsweep
    (m, DocState.initState init)
  simp only [sample, sampleFull]
  rw [he]
  rfl

/-- Claim C5 counterexample.  A document whose only token id (5) is outside
the vocabulary (`V = 1`), with `numIterations = 0`: `sample` succeeds — no
InvalidToken, no failure of any kind, let alone one raised before sampling
work begins. -/
theorem c5_no_failfast_counterexample :
    docC5 0 = 5 ∧ okB (sample opsW mW docC5 chooserW initW 0) = true :=
  ⟨rfl, rfl⟩

/-- Witness for the amended C5 at a concrete input: one sweep over the same
out-of-vocabulary document does fail. -/
theorem c5_oov_token_fails_lazily_witness :
    (0 : ℤ) < 1 ∧ (1 : ℕ) ≤ docC5 0 ∧
      okB (sample opsW mW docC5 chooserW initW 1) = false :=
  ⟨by norm_num, by norm_num [docC5],
    c5_oov_token_fails_lazily opsW mW docC5 chooserW initW 1 (by norm_num)
      ⟨0, by norm_num [docC5]⟩⟩

/-- Claim C7, amended.  A negative `numIterations` raises nothing:
`range(num_iterations)` is empty, so `sample` performs zero sweeps and
returns the initial random assignment. -/
theorem c7_negative_iterations_return_initial {V D K N : ℕ} (ops : Ops)
    (m : GaussianLDA V D K) (doc : Fin N → ℕ)
    (chooser : ℕ → (Fin K → ℚ) → Fin K) (init : Fin N → Fin K)
    (num_iterations : ℤ) (hn : num_iterations < 0) :
    sample ops m doc chooser init num_iterations =
      .ok (fun i => ((init i : ℕ) : ℤ)) := by
  have h0 : num_iterations.toNat = 0 := Int.toNat_of_nonpos (le_of_lt hn)
  simp only [sample, sampleFull, h0, List.range_zero, List.foldlM_nil]
  rfl

/-- Claim C7 counterexample.  `sample` with `numIterations = -1` succeeds
(no InvalidArgument, no error at all). -/
theorem c7_no_invalid_argument_counterexample :
    okB (sample opsW mW docW chooserW initW (-1)) = true := rfl

/-- Witness for the amended C7 at a concrete input. -/
theorem c7_negative_iterations_witness :
    sample opsW mW docW chooserW initW (-1) =
      .ok (fun i => ((initW i : ℕ) : ℤ)) :=
  c7_negative_iterations_return_initial opsW mW docW chooserW initW (-1)
    (by norm_num)

/-- Witness for C2 at a concrete input (`K = 1`, constant positive `exp`). -/
theorem c2_sample_witness :
    0 < 1 ∧
      (sample opsW mW docW chooserW initW 1 =
          sampleSpec opsW mW docW chooserW initW 1 ∧
        ∀ (c : Fin 1 → ℤ) (x : Fin 1 → ℚ),
          ∑ t : Fin 1, posteriorSpec opsW mW c x t = 1) :=
  ⟨Nat.one_pos,
    c2_sample_follows_spec_transition opsW mW docW chooserW initW 1
      Nat.one_pos (fun q => by norm_num [opsW])⟩

/-- Claim C8, amended: `__init__` never fails — it stores the arrays as
given and computes the derived caches, performing no shape validation. -/
theorem c8_init_never_fails (ops : Ops) (vocab_embeddings : List (List ℚ))
    (vocab : List String) (num_tables : ℕ) (alpha kappa : ℚ)
    (table_counts : List ℚ) (table_means : List (List ℚ))
    (log_determinants : List ℚ)
    (table_cholesky_ltriangular_mat : List (List (List ℚ))) :
    okB (initRaw ops vocab_embeddings vocab num_tables alpha kappa
      table_counts table_means log_determinants
      table_cholesky_ltriangular_mat) = true := rfl

/-- Claim C8 counterexample.  Construction with `K = num_tables = 2` but a
single table count, a 3-wide mean over 2-wide embeddings, three
log-determinants and no Cholesky factors at all — grossly inconsistent
shapes — succeeds: no ShapeMismatch is raised. -/
theorem c8_no_shape_validation_counterexample :
    ([(0 : ℚ)] : List ℚ).length ≠ 2 ∧
      okB (initRaw opsW [[0, 0], [0, 0]] [] 2 1 1 [0] [[0, 0, 0]]
        [0, 0, 0] []) = true :=
  ⟨by norm_num, rfl⟩

/-- Claim C1 (code_bug evidence).  At the concrete model `mC1` (scale factor
1, scaled factor `L' = cholC1 = [[1,0],[1,1]]`, centred vector
`d = dC1 = (1,1)`): the solve the code performs (`solve_triangular` without
`lower=True`, embedded as `backSolve`) returns `z = (1,1)`, which does NOT
satisfy the lower-triangular system (`L' z = (1,2) ≠ d`); forward
substitution — what the claim prescribes — returns `z = (1,0)`, which does;
consequently the code's density (−2, Mahalanobis term 2) differs from the
value of the claim's algorithm (−1, Mahalanobis term 1) under `opsC1`. -/
theorem c1_solve_is_not_forward_substitution :
    backSolve cholC1 dC1 = [1, 1] ∧
    matVecMul cholC1 (backSolve cholC1 dC1) ≠ dC1 ∧
    forwardSolve cholC1 dC1 = [1, 0] ∧
    matVecMul cholC1 (forwardSolve cholC1 dC1) = dC1 ∧
    log_multivariate_tdensity opsC1 mC1 (fun _ => 1) 0 = -2 ∧
    log_multivariate_tdensity_spec opsC1 mC1 (fun _ => 1) 0 = -1 := by
  refine ⟨?_, ?_, ?_, ?_, ?_, ?_⟩
  · norm_num [backSolve, backSolveAux, cholC1, dC1, dotTrunc]
  · norm_num [backSolve, backSolveAux, matVecMul, cholC1, dC1, dotTrunc]
  · norm_num [forwardSolve, forwardSolveAux, cholC1, dC1, dotTrunc]
  · norm_num [forwardSolve, forwardSolveAux, matVecMul, cholC1, dC1, dotTrunc]
  · norm_num [log_multivariate_tdensity, opsC1, mC1, backSolve, backSolveAux,
      dotTrunc, List.finRange_succ_eq_map, List.finRange_zero, Fin.isValue]
  · norm_num [log_multivariate_tdensity_spec, opsC1, mC1, forwardSolve,
      forwardSolveAux, dotTrunc, List.finRange_succ_eq_map, List.finRange_zero,
      Fin.isValue]

/-- Claim C3: for every embedding vector `x` and table `t`,
`log_multivariate_tdensity_tables(x)[t]` equals
`log_multivariate_tdensity(x,t)` within 1e-9 absolute tolerance (in the
exact-arithmetic embedding the two are equal outright, so any tolerance
holds). -/
theorem c3_tables_matches_single (ops : Ops) {V D K : ℕ}
    (m : GaussianLDA V D K) (x : Fin D → ℚ) (t : Fin K) :
    |log_multivariate_tdensity ops m x t -
      log_multivariate_tdensity_tables ops m x t| ≤ 1 / 1000000000 := by
  rw [dens_tables_eq_single, sub_self, abs_zero]
  norm_num

/-- Claim C6 (code_bug evidence).  `load_from_java` always stores twice the
log-determinant of the Cholesky factor; at the concrete factor `[[3]]`
(with `log` the identity) it stores 6 where the claim — and the contract of
the `log_determinants` field (`model.py:43-44`) that the density evaluator
relies on — requires 3. -/
theorem c6_legacy_logdet_is_doubled :
    (∀ (ops : Ops) (n : ℕ) (A : Matrix (Fin n) (Fin n) ℚ),
      legacy_log_determinant ops A = 2 * halfLogDetOfChol ops A) ∧
    legacy_log_determinant opsC6 cholC6 = 6 ∧
    halfLogDetOfChol opsC6 cholC6 = 3 := by
  refine ⟨fun ops n A => rfl, ?_, ?_⟩
  · norm_num [legacy_log_determinant, slogdet_logabs, opsC6, cholC6,
      Matrix.det_fin_one]
  · norm_num [halfLogDetOfChol, opsC6, cholC6, Matrix.det_fin_one]

/-- Claim C10: on a 2-dimensional input, `log_multivariate_tdensity` returns
the row-wise map of the single-vector evaluator: the `x.ndim > 1` branch
(`model.py:251-255`) fills entry `i` with the recursive call on row
`X[i]`. -/
theorem c10_batch_is_rowwise_map {V D K n : ℕ} (ops : Ops)
    (m : GaussianLDA V D K) (X : Fin n → Fin D → ℚ) (table_id : Fin K)
    (i : Fin n) :
    log_multivariate_tdensity_nd ops m X table_id i =
      log_multivariate_tdensity ops m (X i) table_id := rfl

end GLDA
